import Mathlib

/-!
Verification of the transcript scoring engine (`TranscriptAnalyzer` in
`src/lib/aiAnalysis.ts`).

The analyzer is a pure function of the transcript string, but it consumes the
outputs of two third-party NLP libraries (`sentiment` and `compromise`): the
raw lexicon sentiment score, the sentence segmentation, the question count and
the part-of-speech / entity lists.  We embed those library outputs as an
abstract record `TranscriptDoc`; every theorem is quantified over all such
records, hence over all transcript strings.  JavaScript numbers are modelled
as exact rationals (`ℚ`), `Math.round` as `jsRound` (round half toward +∞),
`Math.max`/`Math.min` as `max`/`min`.  The speaking-pace calculation works on
the raw string itself (`String.split /\s+/`), so it is embedded directly over
`String`.
-/

/-- JavaScript `Math.round`: round half away from -∞ (toward +∞). -/
def jsRound (x : ℚ) : ℤ := ⌊x + 1/2⌋

/-- Clamp a rational into `[0, 100]` (the spec's `clamp(x, 0, 100)`). -/
def clamp0100 (x : ℚ) : ℚ := max 0 (min 100 x)

/-- JavaScript `Set.add` on an insertion-ordered list of strings: append the
element if it is not already present. -/
def jsSetAdd (acc : List String) (x : String) : List String :=
  if x ∈ acc then acc else acc ++ [x]

/-- Model of one sentence as produced by `doc.sentences()`: the values the
analyzer actually reads from it. -/
structure Sentence where
  /-- result of `sentence.wordCount()` -/
  wordCount : Nat
  /-- whether `sentence.text()` matches the passive-voice regex
  `\b(is|was|are|were|being|been)\s+\w+ed\b` -/
  passiveMatch : Bool
  /-- whether `sentence.text().includes('?')` -/
  hasQuestionMark : Bool
  deriving Repr, DecidableEq

/-- Model of the library outputs the analyzer consumes for one transcript:
the raw text plus everything `sentiment.analyze` and the `nlp` document
provide. -/
structure TranscriptDoc where
  /-- the raw transcript string (used by `calculateSpeakingPace`) -/
  text : String
  /-- `sentiment.analyze(text).score`: signed sum of lexicon polarities -/
  rawSentimentScore : ℤ
  /-- `sentiment.analyze(text).positive` -/
  positiveWords : List String
  /-- `sentiment.analyze(text).negative` -/
  negativeWords : List String
  /-- `doc.sentences()` -/
  sentences : List Sentence
  /-- `doc.questions().length` -/
  questionCount : Nat
  /-- number of `!` characters in `doc.text()` -/
  exclamationCount : Nat
  /-- for a word `w`, the number of word-boundary case-insensitive matches of
  `w` in `doc.text()` -/
  interactiveMatches : String → Nat
  /-- `doc.wordCount()` -/
  wordCount : Nat
  /-- `doc.nouns().out('array')` -/
  nouns : List String
  /-- `doc.people().out('array')` -/
  people : List String
  /-- `doc.places().out('array')` -/
  places : List String
  /-- `doc.organizations().out('array')` -/
  organizations : List String

/-- The `detailedAnalysis` record of an `AnalysisResult`. -/
structure DetailedAnalysis where
  wordCount : Nat
  avgWordsPerSentence : ℤ
  questionCount : Nat
  positiveWords : List String
  negativeWords : List String
  namedEntities : List String

/-- The analyzer's output record (`AnalysisResult` in `aiAnalysis.ts`). -/
structure AnalysisResult where
  sentimentScore : ℚ
  sentimentLabel : String
  keyTopics : List String
  speakingPace : ℤ
  clarityScore : ℚ
  engagementScore : ℚ
  questionRelevanceScore : ℚ
  overallScore : ℤ
  detailedAnalysis : DetailedAnalysis

/-- `normalizeSentimentScore`: `Math.max(0, Math.min(100, (score + 10) * 5))`. -/
def normalizeSentimentScore (score : ℚ) : ℚ :=
  max 0 (min 100 ((score + 10) * 5))

/-- `getSentimentLabel`: threshold chain evaluated highest first. -/
def getSentimentLabel (score : ℚ) : String :=
  if score ≥ 70 then "Very Positive"
  else if score ≥ 55 then "Positive"
  else if score ≥ 45 then "Neutral"
  else if score ≥ 30 then "Negative"
  else "Very Negative"

/-- `extractKeyTopics`: nouns longer than 3 characters (lower-cased) into an
insertion-ordered set, then people, places and organizations (lower-cased),
then the first 10 entries. -/
def extractKeyTopics (nouns people places organizations : List String) :
    List String :=
  let topics := nouns.foldl
    (fun acc noun => if noun.length > 3 then jsSetAdd acc noun.toLower else acc) []
  let topics := (people ++ places ++ organizations).foldl
    (fun acc entity => jsSetAdd acc entity.toLower) topics
  topics.take 10

/-- Character class matched by the JavaScript regex `\s` (the whitespace
characters that matter for transcript text). -/
def isJsWhitespace (c : Char) : Bool :=
  c = ' ' ∨ c = '\t' ∨ c = '\n' ∨ c = '\r' ∨ c = '\x0b' ∨ c = '\x0c' ∨ c = ' '

/-- Number of maximal whitespace runs in a character list; `inRun` records
whether the previous character was whitespace. -/
def wsRunsAux : List Char → Bool → Nat
  | [], _ => 0
  | c :: cs, inRun =>
    if isJsWhitespace c then (if inRun then 0 else 1) + wsRunsAux cs true
    else wsRunsAux cs false

/-- Length of `text.split(/\s+/)` in JavaScript: one more than the number of
maximal whitespace runs (leading/trailing runs contribute empty tokens). -/
def jsSplitWsLength (s : String) : Nat := wsRunsAux s.data false + 1

/-- `calculateSpeakingPace`: `wordCount = text.split(/\s+/).length`,
`estimatedMinutes = wordCount / 150`,
`Math.round(wordCount / Math.max(estimatedMinutes, 1))`. -/
def calculateSpeakingPace (text : String) : ℤ :=
  let wordCount : ℚ := jsSplitWsLength text
  let estimatedMinutes : ℚ := wordCount / 150
  jsRound (wordCount / max estimatedMinutes 1)

/-- `normalizeSpeakingPace`: `Math.max(0, 100 - (deviation / 100) * 100)` with
`deviation = Math.abs(pace - 150)`. -/
def normalizeSpeakingPace (pace : ℚ) : ℚ :=
  max 0 (100 - (abs (pace - 150) / 100) * 100)

/-- Per-sentence clarity points: `+2` when the word count is in `[10, 20]`,
else `+1` when it is in `[5, 30)`, plus `+1` when the sentence does not match
the passive-voice regex. -/
def sentenceClarityPoints (s : Sentence) : Nat :=
  (if 10 ≤ s.wordCount ∧ s.wordCount ≤ 20 then 2
   else if 5 ≤ s.wordCount ∧ s.wordCount < 30 then 1
   else 0)
  + (if s.passiveMatch then 0 else 1)

/-- `calculateClarityScore`: zero sentences yield 0, otherwise
`Math.min(100, (clarityPoints / (totalSentences * 3)) * 100)`. -/
def calculateClarityScore (sentences : List Sentence) : ℚ :=
  if sentences.length = 0 then 0
  else
    let clarityPoints : ℚ := ((sentences.map sentenceClarityPoints).sum : ℕ)
    min 100 ((clarityPoints / (sentences.length * 3)) * 100)

/-- The fixed interactive-word list of `calculateEngagementScore`. -/
def interactiveWords : List String :=
  ["you", "we", "us", "our", "together", "think", "feel", "believe"]

/-- `calculateEngagementScore`: questions ×5 capped at 30, exclamations ×3
capped at 20, each interactive word ×2 capped at 10, summed and capped at
100.  All quantities are naturals in the source. -/
def calculateEngagementScore (questionCount exclamationCount : Nat)
    (matchCount : String → Nat) : Nat :=
  let points := min (questionCount * 5) 30 + min (exclamationCount * 3) 20
    + (interactiveWords.map (fun w => min (matchCount w * 2) 10)).sum
  min 100 points

/-- `calculateQuestionRelevance`: zero questions return the default 75;
otherwise base 70, plus 20 when `statements / questions ∈ [2, 5]`, capped
at 100. -/
def calculateQuestionRelevance (questionCount statementCount : Nat) : ℚ :=
  if questionCount = 0 then 75
  else
    let ratio : ℚ := (statementCount : ℚ) / (questionCount : ℚ)
    let relevanceScore : ℚ := if 2 ≤ ratio ∧ ratio ≤ 5 then 70 + 20 else 70
    min 100 relevanceScore

/-- The five sub-scores passed to `calculateOverallScore`; `speakingPace` here
is the already-normalized pace. -/
structure Scores where
  sentimentScore : ℚ
  clarityScore : ℚ
  engagementScore : ℚ
  questionRelevanceScore : ℚ
  speakingPace : ℚ

/-- `calculateOverallScore`: hard-coded weighted average
`0.20 / 0.25 / 0.20 / 0.20 / 0.15`, rounded. -/
def calculateOverallScore (s : Scores) : ℤ :=
  jsRound (s.sentimentScore * (20/100) + s.clarityScore * (25/100)
    + s.engagementScore * (20/100) + s.questionRelevanceScore * (20/100)
    + s.speakingPace * (15/100))

/-- `calculateAvgWordsPerSentence`: 0 when there are no sentences, otherwise
`Math.round(totalWords / sentences.length)`. -/
def calculateAvgWordsPerSentence (totalWords sentenceCount : Nat) : ℤ :=
  if sentenceCount = 0 then 0
  else jsRound ((totalWords : ℚ) / (sentenceCount : ℚ))

/-- `extractNamedEntities`: people, places and organizations deduplicated in
discovery order (no lower-casing here, unlike `extractKeyTopics`). -/
def extractNamedEntities (people places organizations : List String) :
    List String :=
  (people ++ places ++ organizations).foldl jsSetAdd []

/-- `analyzeTranscript`: assembles the full `AnalysisResult` from the library
outputs exactly as the source does. -/
def analyzeTranscript (d : TranscriptDoc) : AnalysisResult :=
  let sentimentScore := normalizeSentimentScore (d.rawSentimentScore : ℚ)
  let sentimentLabel := getSentimentLabel sentimentScore
  let keyTopics := extractKeyTopics d.nouns d.people d.places d.organizations
  let speakingPace := calculateSpeakingPace d.text
  let clarityScore := calculateClarityScore d.sentences
  let engagementScore : ℚ :=
    (calculateEngagementScore d.questionCount d.exclamationCount
      d.interactiveMatches : ℕ)
  let questionRelevanceScore := calculateQuestionRelevance d.questionCount
    (d.sentences.filter (fun s => !s.hasQuestionMark)).length
  let overallScore := calculateOverallScore
    { sentimentScore := sentimentScore
      clarityScore := clarityScore
      engagementScore := engagementScore
      questionRelevanceScore := questionRelevanceScore
      speakingPace := normalizeSpeakingPace (speakingPace : ℚ) }
  { sentimentScore := sentimentScore
    sentimentLabel := sentimentLabel
    keyTopics := keyTopics
    speakingPace := speakingPace
    clarityScore := clarityScore
    engagementScore := engagementScore
    questionRelevanceScore := questionRelevanceScore
    overallScore := overallScore
    detailedAnalysis :=
      { wordCount := d.wordCount
        avgWordsPerSentence :=
          calculateAvgWordsPerSentence d.wordCount d.sentences.length
        questionCount := d.questionCount
        positiveWords := d.positiveWords
        negativeWords := d.negativeWords
        namedEntities :=
          extractNamedEntities d.people d.places d.organizations } }

/-- The analyzer's single error kind at its boundary. -/
inductive AnalyzeError where
  | invalidInput
  deriving Repr, DecidableEq

/-- Modelled from the spec: the `InvalidInput` rejection of non-string/null
input.  In the original the guard is the TypeScript type signature
`analyzeTranscript(transcriptText: string)` — a null/non-string argument
fails before the body runs; no runtime check exists under `src/`.  We model
the boundary as `analyze(input) -> AnalysisResult | fails(InvalidInput)`
with `none` standing for a null/non-string argument. -/
def analyzeTranscriptChecked (input : Option TranscriptDoc) :
    Except AnalyzeError AnalysisResult :=
  match input with
  | none => .error .invalidInput
  | some d => .ok (analyzeTranscript d)

/-- The `defaultCriteria` weight table inserted into the `scoring_criteria`
settings table by the database initialization script. -/
def defaultCriteria : List (String × ℚ) :=
  [("sentiment_analysis", 20/100), ("key_topics", 15/100),
   ("speaking_pace", 15/100), ("clarity", 20/100),
   ("engagement", 15/100), ("question_relevance", 15/100)]

/-- The hard-coded aggregation weights of `calculateOverallScore`, in the
order sentiment, clarity, engagement, question relevance, pace. -/
def aggregatorWeights : List ℚ := [20/100, 25/100, 20/100, 20/100, 15/100]

/-- Raw lexicon sentiment score of a token list: the signed sum of per-token
polarities under a polarity lexicon `lex` (unlisted tokens have polarity 0). -/
def rawLexiconScore (lex : String → ℤ) (tokens : List String) : ℤ :=
  (tokens.map lex).sum

/-- Normalized sentiment score of a token list under a lexicon. -/
def sentimentScoreOf (lex : String → ℤ) (tokens : List String) : ℚ :=
  normalizeSentimentScore ((rawLexiconScore lex tokens : ℤ) : ℚ)

/-- Fragment of the AFINN-165 polarity lexicon shipped with the `sentiment`
package: `good ↦ +3`, `bad ↦ -3`, everything else unlisted. -/
def lexSample (t : String) : ℤ :=
  if t = "good" then 3 else if t = "bad" then -3 else 0

/-- Spec-side pace normalization for aggregation:
`clamp(100 - (|pace - 150| / 100) * 100, 0, 100)`. -/
def specNormalizedPace (pace : ℚ) : ℚ :=
  clamp0100 (100 - (abs (pace - 150) / 100) * 100)

/-- Spec-side per-sentence clarity points, phrased as the claim does: `+2`
when the word count is in `[10, 20]`, else `+1` when it is in `[5, 30)` (at
most one length contribution, never both), plus `+1` when the sentence does
not match the passive-voice regex. -/
def specSentencePoints (s : Sentence) : Nat :=
  (if 10 ≤ s.wordCount ∧ s.wordCount ≤ 20 then 2 else 0)
  + (if ¬(10 ≤ s.wordCount ∧ s.wordCount ≤ 20)
        ∧ (5 ≤ s.wordCount ∧ s.wordCount < 30) then 1 else 0)
  + (if s.passiveMatch then 0 else 1)

/-- Spec-side clarity score:
`clamp((totalPoints / (sentenceCount * 3)) * 100, 0, 100)`, 0 on zero
sentences. -/
def specClarityScore (sentences : List Sentence) : ℚ :=
  if sentences = [] then 0
  else clamp0100
    ((((sentences.map specSentencePoints).sum : ℕ) /
      ((sentences.length : ℚ) * 3)) * 100)

/-- Spec-side engagement score: three separately capped components summed and
clamped to `[0, 100]`, the per-word cap applied before summing across the
fixed word list. -/
def specEngagementScore (questionCount exclamationCount : Nat)
    (matchCount : String → Nat) : ℚ :=
  clamp0100 (min ((questionCount : ℚ) * 5) 30
    + min ((exclamationCount : ℚ) * 3) 20
    + (interactiveWords.map (fun w => min ((matchCount w : ℚ) * 2) 10)).sum)

/-- Deduplication keeping first occurrences in discovery order (JavaScript
`Set` insertion semantics). -/
def specDedup (xs : List String) : List String := xs.foldl jsSetAdd []

/-- Document model of the empty transcript: every library output is empty. -/
def docBase : TranscriptDoc :=
  { text := ""
    rawSentimentScore := 0
    positiveWords := []
    negativeWords := []
    sentences := []
    questionCount := 0
    exclamationCount := 0
    interactiveMatches := fun _ => 0
    wordCount := 0
    nouns := []
    people := []
    places := []
    organizations := [] }

/-- Document model of a one-token transcript containing the single
positive-lexicon word `good`. -/
def docGood : TranscriptDoc :=
  { docBase with
    text := "good"
    rawSentimentScore := 3
    positiveWords := ["good"]
    wordCount := 1
    sentences := [{ wordCount := 1, passiveMatch := false,
                    hasQuestionMark := false }] }

/-- Document model of a short interactive transcript: two questions, one
exclamation, and the word `you` appearing five times. -/
def docInteractive : TranscriptDoc :=
  { docBase with
    questionCount := 2
    exclamationCount := 1
    interactiveMatches := fun w => if w = "you" then 5 else 0 }

/-- Document model of a transcript with one question followed by three
statements (statement-to-question ratio 3). -/
def docQandA : TranscriptDoc :=
  { docBase with
    questionCount := 1
    sentences :=
      [{ wordCount := 4, passiveMatch := false, hasQuestionMark := true },
       { wordCount := 8, passiveMatch := false, hasQuestionMark := false },
       { wordCount := 12, passiveMatch := false, hasQuestionMark := false },
       { wordCount := 6, passiveMatch := true, hasQuestionMark := false }] }

/-- A 150-token text (149 separating spaces). -/
def longTextSample : String :=
  String.intercalate " " (List.replicate 150 "w")

theorem clamp0100_nonneg (x : ℚ) : 0 ≤ clamp0100 x := le_max_left 0 _

theorem clamp0100_le (x : ℚ) : clamp0100 x ≤ 100 :=
  max_le (by norm_num) (min_le_left _ _)

theorem normalizeSentimentScore_eq_clamp (s : ℚ) :
    normalizeSentimentScore s = clamp0100 ((s + 10) * 5) := rfl

theorem normalizeSpeakingPace_eq_spec (p : ℚ) :
    normalizeSpeakingPace p = specNormalizedPace p := by
  unfold normalizeSpeakingPace specNormalizedPace clamp0100
  rw [min_eq_right]
  have h : 0 ≤ (abs (p - 150) / 100) * 100 := by positivity
  linarith

theorem normalizeSpeakingPace_nonneg (p : ℚ) : 0 ≤ normalizeSpeakingPace p :=
  le_max_left 0 _

theorem normalizeSpeakingPace_le (p : ℚ) : normalizeSpeakingPace p ≤ 100 := by
  unfold normalizeSpeakingPace
  have h : 0 ≤ (abs (p - 150) / 100) * 100 := by positivity
  exact max_le (by norm_num) (by linarith)

theorem calculateClarityScore_nonneg (ss : List Sentence) :
    0 ≤ calculateClarityScore ss := by
  unfold calculateClarityScore
  split
  · exact le_refl 0
  · exact le_min (by norm_num) (by positivity)

theorem calculateClarityScore_le (ss : List Sentence) :
    calculateClarityScore ss ≤ 100 := by
  unfold calculateClarityScore
  split
  · norm_num
  · exact min_le_left _ _

theorem calculateQuestionRelevance_mem (q st : Nat) :
    0 ≤ calculateQuestionRelevance q st ∧ calculateQuestionRelevance q st ≤ 100 := by
  unfold calculateQuestionRelevance
  split
  · norm_num
  · simp only []
    split <;> constructor <;> norm_num

theorem calculateEngagementScore_le (q ex : Nat) (m : String → Nat) :
    calculateEngagementScore q ex m ≤ 100 :=
  min_le_left _ _

theorem jsRound_mem (x : ℚ) (h0 : 0 ≤ x) (h1 : x ≤ 100) :
    0 ≤ jsRound x ∧ jsRound x ≤ 100 := by
  constructor
  · exact Int.le_floor.2 (by push_cast; linarith)
  · have h2 : jsRound x ≤ ⌊(201/2 : ℚ)⌋ := Int.floor_le_floor (by linarith)
    have h3 : ⌊(201/2 : ℚ)⌋ = (100 : ℤ) := by
      rw [Int.floor_eq_iff]
      norm_num
    omega

theorem jsSetAdd_nodup (acc : List String) (x : String) (h : acc.Nodup) :
    (jsSetAdd acc x).Nodup := by
  unfold jsSetAdd
  split
  · exact h
  · next hx => simp [List.nodup_append, h, hx]

theorem foldl_nodup_of_step {β : Type} (f : List String → β → List String)
    (hf : ∀ acc b, f acc b = acc ∨ ∃ y, f acc b = jsSetAdd acc y) :
    ∀ (xs : List β) (acc : List String), acc.Nodup → (xs.foldl f acc).Nodup := by
  intro xs
  induction xs with
  | nil => intro acc h; exact h
  | cons b bs ih =>
    intro acc h
    rw [List.foldl_cons]
    rcases hf acc b with h1 | ⟨y, h1⟩
    · rw [h1]; exact ih acc h
    · rw [h1]; exact ih _ (jsSetAdd_nodup _ _ h)

theorem analyzeTranscript_sentimentScore (d : TranscriptDoc) :
    (analyzeTranscript d).sentimentScore
      = normalizeSentimentScore ((d.rawSentimentScore : ℤ) : ℚ) := rfl

theorem analyzeTranscript_sentimentLabel (d : TranscriptDoc) :
    (analyzeTranscript d).sentimentLabel
      = getSentimentLabel (normalizeSentimentScore ((d.rawSentimentScore : ℤ) : ℚ)) := rfl

theorem analyzeTranscript_keyTopics (d : TranscriptDoc) :
    (analyzeTranscript d).keyTopics
      = extractKeyTopics d.nouns d.people d.places d.organizations := rfl

theorem analyzeTranscript_speakingPace (d : TranscriptDoc) :
    (analyzeTranscript d).speakingPace = calculateSpeakingPace d.text := rfl

theorem analyzeTranscript_clarityScore (d : TranscriptDoc) :
    (analyzeTranscript d).clarityScore = calculateClarityScore d.sentences := rfl

theorem analyzeTranscript_engagementScore (d : TranscriptDoc) :
    (analyzeTranscript d).engagementScore
      = ((calculateEngagementScore d.questionCount d.exclamationCount
          d.interactiveMatches : ℕ) : ℚ) := rfl

theorem analyzeTranscript_questionRelevanceScore (d : TranscriptDoc) :
    (analyzeTranscript d).questionRelevanceScore
      = calculateQuestionRelevance d.questionCount
          (d.sentences.filter (fun s => !s.hasQuestionMark)).length := rfl

theorem analyzeTranscript_overallScore (d : TranscriptDoc) :
    (analyzeTranscript d).overallScore = calculateOverallScore
      { sentimentScore := normalizeSentimentScore ((d.rawSentimentScore : ℤ) : ℚ)
        clarityScore := calculateClarityScore d.sentences
        engagementScore := ((calculateEngagementScore d.questionCount
          d.exclamationCount d.interactiveMatches : ℕ) : ℚ)
        questionRelevanceScore := calculateQuestionRelevance d.questionCount
          (d.sentences.filter (fun s => !s.hasQuestionMark)).length
        speakingPace :=
          normalizeSpeakingPace ((calculateSpeakingPace d.text : ℤ) : ℚ) } := rfl

theorem analyzeTranscript_avgWords (d : TranscriptDoc) :
    (analyzeTranscript d).detailedAnalysis.avgWordsPerSentence
      = calculateAvgWordsPerSentence d.wordCount d.sentences.length := rfl

theorem normalizeSentimentScore_mem (s : ℚ) :
    0 ≤ normalizeSentimentScore s ∧ normalizeSentimentScore s ≤ 100 := by
  rw [normalizeSentimentScore_eq_clamp]
  exact ⟨clamp0100_nonneg _, clamp0100_le _⟩

theorem calculateOverallScore_mem (s : Scores)
    (h1 : 0 ≤ s.sentimentScore) (h2 : s.sentimentScore ≤ 100)
    (h3 : 0 ≤ s.clarityScore) (h4 : s.clarityScore ≤ 100)
    (h5 : 0 ≤ s.engagementScore) (h6 : s.engagementScore ≤ 100)
    (h7 : 0 ≤ s.questionRelevanceScore) (h8 : s.questionRelevanceScore ≤ 100)
    (h9 : 0 ≤ s.speakingPace) (h10 : s.speakingPace ≤ 100) :
    0 ≤ calculateOverallScore s ∧ calculateOverallScore s ≤ 100 := by
  unfold calculateOverallScore
  exact jsRound_mem _ (by linarith) (by linarith)

/-- C1: for every input, all bounded scores of `analyzeTranscript` —
sentiment, clarity, engagement, question relevance and overall — lie in
`[0, 100]`; in the exact-rational embedding they are always defined (no NaN
or undefined), including for empty, whitespace-only or punctuation-only
input, which are particular values of the quantified document model. -/
theorem claim_C1_scores_bounded (d : TranscriptDoc) :
    (0 ≤ (analyzeTranscript d).sentimentScore
      ∧ (analyzeTranscript d).sentimentScore ≤ 100)
    ∧ (0 ≤ (analyzeTranscript d).clarityScore
      ∧ (analyzeTranscript d).clarityScore ≤ 100)
    ∧ (0 ≤ (analyzeTranscript d).engagementScore
      ∧ (analyzeTranscript d).engagementScore ≤ 100)
    ∧ (0 ≤ (analyzeTranscript d).questionRelevanceScore
      ∧ (analyzeTranscript d).questionRelevanceScore ≤ 100)
    ∧ (0 ≤ (analyzeTranscript d).overallScore
      ∧ (analyzeTranscript d).overallScore ≤ 100) := by
  have hsent := normalizeSentimentScore_mem ((d.rawSentimentScore : ℤ) : ℚ)
  have hclar := And.intro (calculateClarityScore_nonneg d.sentences)
    (calculateClarityScore_le d.sentences)
  have heng : (0 : ℚ) ≤ ((calculateEngagementScore d.questionCount
        d.exclamationCount d.interactiveMatches : ℕ) : ℚ)
      ∧ ((calculateEngagementScore d.questionCount
        d.exclamationCount d.interactiveMatches : ℕ) : ℚ) ≤ 100 := by
    constructor
    · positivity
    · exact_mod_cast calculateEngagementScore_le d.questionCount
        d.exclamationCount d.interactiveMatches
  have hqr := calculateQuestionRelevance_mem d.questionCount
    (d.sentences.filter (fun s => !s.hasQuestionMark)).length
  have hpace := And.intro
    (normalizeSpeakingPace_nonneg ((calculateSpeakingPace d.text : ℤ) : ℚ))
    (normalizeSpeakingPace_le ((calculateSpeakingPace d.text : ℤ) : ℚ))
  refine ⟨?_, ?_, ?_, ?_, ?_⟩
  · rw [analyzeTranscript_sentimentScore]; exact hsent
  · rw [analyzeTranscript_clarityScore]; exact hclar
  · rw [analyzeTranscript_engagementScore]; exact heng
  · rw [analyzeTranscript_questionRelevanceScore]; exact hqr
  · rw [analyzeTranscript_overallScore]
    exact calculateOverallScore_mem _ hsent.1 hsent.2 hclar.1 hclar.2
      heng.1 heng.2 hqr.1 hqr.2 hpace.1 hpace.2

/-- C2: for every input, the overall score is the rounded hard-coded weighted
sum `0.20·sentiment + 0.25·clarity + 0.20·engagement + 0.20·questionRelevance
+ 0.15·normalizedPace`, where `normalizedPace` is the aggregation-only
normalization `clamp(100 - (|speakingPace - 150| / 100) * 100, 0, 100)`; the
result is independent of the configurable scoring-criteria weight table,
whose entries `(0.20/0.15/0.15/0.20/0.15/0.15)` differ from the hard-coded
aggregation weights. -/
theorem claim_C2_overall_formula (d : TranscriptDoc) :
    (analyzeTranscript d).overallScore
      = jsRound ((analyzeTranscript d).sentimentScore * (20/100)
        + (analyzeTranscript d).clarityScore * (25/100)
        + (analyzeTranscript d).engagementScore * (20/100)
        + (analyzeTranscript d).questionRelevanceScore * (20/100)
        + specNormalizedPace (((analyzeTranscript d).speakingPace : ℤ) : ℚ)
          * (15/100))
    ∧ defaultCriteria.map Prod.snd
        = [20/100, 15/100, 15/100, 20/100, 15/100, 15/100]
    ∧ aggregatorWeights ≠ defaultCriteria.map Prod.snd := by
  refine ⟨?_, by norm_num [defaultCriteria], ?_⟩
  · rw [analyzeTranscript_overallScore, analyzeTranscript_sentimentScore,
      analyzeTranscript_clarityScore, analyzeTranscript_engagementScore,
      analyzeTranscript_questionRelevanceScore, analyzeTranscript_speakingPace]
    unfold calculateOverallScore
    rw [normalizeSpeakingPace_eq_spec]
  · intro hcontra
    have hlen := congrArg List.length hcontra
    simp [aggregatorWeights, defaultCriteria] at hlen

/-- Characterization of `getSentimentLabel` by the non-overlapping threshold
bands, evaluated highest first. -/
theorem getSentimentLabel_spec (s : ℚ) :
    (70 ≤ s → getSentimentLabel s = "Very Positive")
    ∧ (55 ≤ s ∧ s < 70 → getSentimentLabel s = "Positive")
    ∧ (45 ≤ s ∧ s < 55 → getSentimentLabel s = "Neutral")
    ∧ (30 ≤ s ∧ s < 45 → getSentimentLabel s = "Negative")
    ∧ (s < 30 → getSentimentLabel s = "Very Negative") := by
  unfold getSentimentLabel
  split_ifs with h1 h2 h3 h4 <;>
    refine ⟨fun h => ?_, fun h => ?_, fun h => ?_, fun h => ?_, fun h => ?_⟩ <;>
    first
      | rfl
      | (exfalso; rcases h with ⟨ha, hb⟩; linarith)
      | (exfalso; linarith)

/-- C3: for every input whose raw sentiment score is the signed sum of
per-token lexicon polarities, the sentiment score equals
`clamp((rawLexiconScore + 10) * 5, 0, 100)`, and the sentiment label follows
the highest-first thresholds 70/55/45/30. -/
theorem claim_C3_sentiment_formula (d : TranscriptDoc) (lex : String → ℤ)
    (tokens : List String)
    (hraw : d.rawSentimentScore = rawLexiconScore lex tokens) :
    (analyzeTranscript d).sentimentScore
      = clamp0100 ((((rawLexiconScore lex tokens : ℤ) : ℚ) + 10) * 5)
    ∧ (70 ≤ (analyzeTranscript d).sentimentScore
        → (analyzeTranscript d).sentimentLabel = "Very Positive")
    ∧ (55 ≤ (analyzeTranscript d).sentimentScore
        ∧ (analyzeTranscript d).sentimentScore < 70
        → (analyzeTranscript d).sentimentLabel = "Positive")
    ∧ (45 ≤ (analyzeTranscript d).sentimentScore
        ∧ (analyzeTranscript d).sentimentScore < 55
        → (analyzeTranscript d).sentimentLabel = "Neutral")
    ∧ (30 ≤ (analyzeTranscript d).sentimentScore
        ∧ (analyzeTranscript d).sentimentScore < 45
        → (analyzeTranscript d).sentimentLabel = "Negative")
    ∧ ((analyzeTranscript d).sentimentScore < 30
        → (analyzeTranscript d).sentimentLabel = "Very Negative") := by
  have hscore : (analyzeTranscript d).sentimentScore
      = clamp0100 ((((rawLexiconScore lex tokens : ℤ) : ℚ) + 10) * 5) := by
    rw [analyzeTranscript_sentimentScore, hraw, normalizeSentimentScore_eq_clamp]
  have hlabel : (analyzeTranscript d).sentimentLabel
      = getSentimentLabel ((analyzeTranscript d).sentimentScore) := by
    rw [analyzeTranscript_sentimentLabel, analyzeTranscript_sentimentScore]
  have hs := getSentimentLabel_spec ((analyzeTranscript d).sentimentScore)
  refine ⟨hscore, ?_, ?_, ?_, ?_, ?_⟩ <;> intro h <;> rw [hlabel]
  · exact hs.1 h
  · exact hs.2.1 h
  · exact hs.2.2.1 h
  · exact hs.2.2.2.1 h
  · exact hs.2.2.2.2 h

theorem clamp0100_of_nonneg {x : ℚ} (h : 0 ≤ x) : clamp0100 x = min 100 x := by
  unfold clamp0100
  exact max_eq_right (le_min (by norm_num) h)

theorem sentenceClarityPoints_eq_spec (s : Sentence) :
    sentenceClarityPoints s = specSentencePoints s := by
  unfold sentenceClarityPoints specSentencePoints
  split_ifs <;> omega

/-- C4: for every input, the clarity score equals
`clamp((totalPoints / (sentenceCount * 3)) * 100, 0, 100)`, where each
sentence contributes at most one length-based award (+2 for word count in
`[10, 20]`, else +1 for `[5, 30)`) plus +1 when it does not match the
passive-voice regex; zero sentences yield 0. -/
theorem claim_C4_clarity_formula (d : TranscriptDoc) :
    (analyzeTranscript d).clarityScore = specClarityScore d.sentences := by
  rw [analyzeTranscript_clarityScore]
  unfold calculateClarityScore specClarityScore
  have hmap : d.sentences.map sentenceClarityPoints
      = d.sentences.map specSentencePoints :=
    List.map_congr_left (fun s _ => sentenceClarityPoints_eq_spec s)
  rcases heq : d.sentences with _ | ⟨s, ss⟩
  · simp
  · rw [← heq]
    have hne : d.sentences.length ≠ 0 := by rw [heq]; simp
    rw [if_neg hne, if_neg (by rw [heq]; simp)]
    rw [clamp0100_of_nonneg (by positivity), hmap]

theorem specEngagementScore_eq_code (q ex : Nat) (m : String → Nat) :
    specEngagementScore q ex m = ((calculateEngagementScore q ex m : ℕ) : ℚ) := by
  unfold specEngagementScore calculateEngagementScore
  have hnn : (0 : ℚ) ≤ min ((q : ℚ) * 5) 30 + min ((ex : ℚ) * 3) 20
      + (interactiveWords.map (fun w => min ((m w : ℚ) * 2) 10)).sum := by
    have h1 : (0 : ℚ) ≤ min ((q : ℚ) * 5) 30 := le_min (by positivity) (by norm_num)
    have h2 : (0 : ℚ) ≤ min ((ex : ℚ) * 3) 20 := le_min (by positivity) (by norm_num)
    have h3 : (0 : ℚ)
        ≤ (interactiveWords.map (fun w => min ((m w : ℚ) * 2) 10)).sum := by
      refine List.sum_nonneg fun x hx => ?_
      rcases List.mem_map.1 hx with ⟨w, _, rfl⟩
      exact le_min (by positivity) (by norm_num)
    linarith
  rw [clamp0100_of_nonneg hnn]
  push_cast [List.map_map]
  refine congrArg (fun t => 100 ⊓ ((q : ℚ) * 5 ⊓ 30 + (ex : ℚ) * 3 ⊓ 20 + t)) ?_
  refine congrArg List.sum (List.map_congr_left fun w _ => ?_)
  simp only [Function.comp_apply]
  push_cast
  rfl

/-- C5: for every input, the engagement score is the sum of three separately
capped components clamped to `[0, 100]` — questions ×5 capped at 30,
exclamation marks ×3 capped at 20, and each fixed interactive word ×2 capped
at 10 per word before summing — and the score only depends on each
interactive word's match count through its cap at 5 matches, so for example
20 occurrences of `you` contribute exactly what 5 occurrences do. -/
theorem claim_C5_engagement_formula (d : TranscriptDoc) :
    (analyzeTranscript d).engagementScore
      = specEngagementScore d.questionCount d.exclamationCount
          d.interactiveMatches
    ∧ ∀ m' : String → Nat,
        (∀ w ∈ interactiveWords, min (m' w) 5 = min (d.interactiveMatches w) 5) →
        specEngagementScore d.questionCount d.exclamationCount m'
          = specEngagementScore d.questionCount d.exclamationCount
              d.interactiveMatches := by
  constructor
  · rw [analyzeTranscript_engagementScore, specEngagementScore_eq_code]
  · intro m' hm
    unfold specEngagementScore
    refine congrArg clamp0100 ?_
    refine congrArg _ (congrArg List.sum (List.map_congr_left fun w hw => ?_))
    have hnat : min (m' w * 2) 10 = min (d.interactiveMatches w * 2) 10 := by
      have := hm w hw
      omega
    have hc : ((min (m' w * 2) 10 : ℕ) : ℚ)
        = ((min (d.interactiveMatches w * 2) 10 : ℕ) : ℚ) := by
      exact_mod_cast congrArg (Nat.cast (R := ℚ)) hnat
    push_cast at hc
    exact hc

/-- C6: for every input with zero questions the question-relevance score is
exactly 75; with at least one question it is 90 when the
statements-to-questions ratio lies in `[2, 5]` and 70 otherwise, so the score
is always one of 75, 70 or 90. -/
theorem claim_C6_question_relevance (d : TranscriptDoc) :
    (d.questionCount = 0 → (analyzeTranscript d).questionRelevanceScore = 75)
    ∧ (d.questionCount ≠ 0 →
        (analyzeTranscript d).questionRelevanceScore
          = (if 2 ≤ ((d.sentences.filter (fun s => !s.hasQuestionMark)).length : ℚ)
                  / (d.questionCount : ℚ)
              ∧ ((d.sentences.filter (fun s => !s.hasQuestionMark)).length : ℚ)
                  / (d.questionCount : ℚ) ≤ 5
             then 90 else 70))
    ∧ ((analyzeTranscript d).questionRelevanceScore = 75
      ∨ (analyzeTranscript d).questionRelevanceScore = 70
      ∨ (analyzeTranscript d).questionRelevanceScore = 90) := by
  rw [analyzeTranscript_questionRelevanceScore]
  unfold calculateQuestionRelevance
  refine ⟨fun h => by rw [if_pos h], fun h => ?_, ?_⟩
  · rw [if_neg h]
    dsimp only
    split_ifs <;> norm_num
  · dsimp only
    split_ifs <;> norm_num

theorem foldl_nounAdd_eq (ns : List String) (acc : List String) :
    ns.foldl (fun acc noun =>
        if noun.length > 3 then jsSetAdd acc noun.toLower else acc) acc
      = ((ns.filter (fun n => n.length > 3)).map String.toLower).foldl
          jsSetAdd acc := by
  induction ns generalizing acc with
  | nil => rfl
  | cons n ns ih =>
    by_cases hn : n.length > 3
    · rw [List.foldl_cons, if_pos hn, List.filter_cons,
        if_pos (by simpa using hn), List.map_cons, List.foldl_cons]
      exact ih (jsSetAdd acc n.toLower)
    · rw [List.foldl_cons, if_neg hn, List.filter_cons,
        if_neg (by simpa using hn)]
      exact ih acc

/-- C7: for every input, `keyTopics` is the first 10 entries of the
deduplicated (first-occurrence, discovery-order) sequence of lower-cased
common nouns longer than 3 characters followed by lower-cased recognized
entities; it has no duplicates and never more than 10 entries. -/
theorem claim_C7_key_topics (d : TranscriptDoc) :
    (analyzeTranscript d).keyTopics.length ≤ 10
    ∧ (analyzeTranscript d).keyTopics.Nodup
    ∧ (analyzeTranscript d).keyTopics
        = (specDedup (((d.nouns.filter (fun n => n.length > 3)).map
              String.toLower)
            ++ ((d.people ++ d.places ++ d.organizations).map
              String.toLower))).take 10 := by
  rw [analyzeTranscript_keyTopics]
  have h1 : specDedup (((d.nouns.filter (fun n => n.length > 3)).map
        String.toLower)
      ++ ((d.people ++ d.places ++ d.organizations).map String.toLower))
      = ((d.people ++ d.places ++ d.organizations).map String.toLower).foldl
          jsSetAdd
          (((d.nouns.filter (fun n => n.length > 3)).map String.toLower).foldl
            jsSetAdd []) := by
    unfold specDedup
    rw [List.foldl_append]
  have h2 : ∀ acc : List String,
      ((d.people ++ d.places ++ d.organizations).map String.toLower).foldl
          jsSetAdd acc
        = (d.people ++ d.places ++ d.organizations).foldl
            (fun acc entity => jsSetAdd acc entity.toLower) acc :=
    fun acc => List.foldl_map _ _ _ _
  have hfold : extractKeyTopics d.nouns d.people d.places d.organizations
      = (specDedup (((d.nouns.filter (fun n => n.length > 3)).map
            String.toLower)
          ++ ((d.people ++ d.places ++ d.organizations).map
            String.toLower))).take 10 := by
    unfold extractKeyTopics
    rw [h1, h2, foldl_nounAdd_eq]
  refine ⟨?_, ?_, hfold⟩
  · rw [hfold]
    exact List.length_take_le _ _
  · rw [hfold]
    refine List.Sublist.nodup (List.take_sublist _ _) ?_
    exact foldl_nodup_of_step jsSetAdd (fun acc b => Or.inr ⟨b, rfl⟩) _ []
      List.nodup_nil

/-- C8: for every well-formed input the analyzer returns an `AnalysisResult`
and never fails — it is a total function of the document model — and every
internal division is guarded: the speaking-pace divisor is floored at 1,
zero sentences short-circuit the clarity score and the average words per
sentence to 0, and zero questions short-circuit the question-relevance
ratio to the default 75.  Only a non-string/null input (modelled as `none`)
is rejected, with `InvalidInput`. -/
theorem claim_C8_total_and_guarded :
    (∀ d : TranscriptDoc,
        analyzeTranscriptChecked (some d) = Except.ok (analyzeTranscript d))
    ∧ analyzeTranscriptChecked none = Except.error AnalyzeError.invalidInput
    ∧ (∀ s : String, (1 : ℚ) ≤ max ((jsSplitWsLength s : ℚ) / 150) 1)
    ∧ (∀ d : TranscriptDoc, d.sentences = [] →
        (analyzeTranscript d).clarityScore = 0
          ∧ (analyzeTranscript d).detailedAnalysis.avgWordsPerSentence = 0)
    ∧ (∀ d : TranscriptDoc, d.questionCount = 0 →
        (analyzeTranscript d).questionRelevanceScore = 75) := by
  refine ⟨fun d => rfl, rfl, fun s => le_max_right _ _,
    fun d h => ⟨?_, ?_⟩, fun d h => ?_⟩
  · rw [analyzeTranscript_clarityScore]
    unfold calculateClarityScore
    rw [if_pos (by rw [h]; rfl)]
  · rw [analyzeTranscript_avgWords]
    unfold calculateAvgWordsPerSentence
    rw [if_pos (by rw [h]; rfl)]
  · rw [analyzeTranscript_questionRelevanceScore]
    unfold calculateQuestionRelevance
    rw [if_pos h]

theorem jsSplitWsLength_pos (s : String) : 1 ≤ jsSplitWsLength s :=
  Nat.le_add_left 1 _

theorem jsRound_natCast (n : ℕ) : jsRound ((n : ℕ) : ℚ) = (n : ℤ) := by
  unfold jsRound
  rw [show ((n : ℚ) + 1/2) = (((n : ℤ) : ℚ) + 1/2) by push_cast; ring]
  rw [Int.floor_int_add]
  norm_num

/-- C10: for every input string the reported speaking pace lies in
`[1, 150]`: splitting any string on whitespace yields at least one token, so
the pace is never 0, and for 150 or more tokens the formula
`round(wordCount / max(wordCount / 150, 1))` yields exactly 150. -/
theorem claim_C10_pace_bounds (s : String) :
    1 ≤ jsSplitWsLength s
    ∧ 1 ≤ calculateSpeakingPace s
    ∧ calculateSpeakingPace s ≤ 150
    ∧ (150 ≤ jsSplitWsLength s → calculateSpeakingPace s = 150) := by
  have h1 : 1 ≤ jsSplitWsLength s := jsSplitWsLength_pos s
  have hpace : calculateSpeakingPace s
      = jsRound ((jsSplitWsLength s : ℚ)
        / max ((jsSplitWsLength s : ℚ) / 150) 1) := rfl
  by_cases hc : (jsSplitWsLength s : ℚ) / 150 ≤ 1
  · have hmax : max ((jsSplitWsLength s : ℚ) / 150) 1 = 1 := max_eq_right hc
    have hval : calculateSpeakingPace s = (jsSplitWsLength s : ℤ) := by
      rw [hpace, hmax, div_one, jsRound_natCast]
    have hle : jsSplitWsLength s ≤ 150 := by
      have h150 := (div_le_one (by norm_num : (0:ℚ) < 150)).1 hc
      exact_mod_cast h150
    refine ⟨h1, ?_, ?_, ?_⟩
    · rw [hval]; exact_mod_cast h1
    · rw [hval]; exact_mod_cast hle
    · intro hge
      rw [hval]
      have : jsSplitWsLength s = 150 := le_antisymm hle hge
      rw [this]; rfl
  · push_neg at hc
    have hpos : (0 : ℚ) < (jsSplitWsLength s : ℚ) := by
      exact_mod_cast Nat.lt_of_lt_of_le Nat.zero_lt_one h1
    have hmax : max ((jsSplitWsLength s : ℚ) / 150) 1
        = (jsSplitWsLength s : ℚ) / 150 := max_eq_left (le_of_lt hc)
    have hdiv : (jsSplitWsLength s : ℚ)
        / ((jsSplitWsLength s : ℚ) / 150) = 150 := by
      field_simp
    have hval : calculateSpeakingPace s = 150 := by
      rw [hpace, hmax, hdiv,
        show (150 : ℚ) = ((150 : ℕ) : ℚ) by norm_num, jsRound_natCast]
      rfl
    exact ⟨h1, by rw [hval]; norm_num, by rw [hval], fun _ => hval⟩

theorem rawLexiconScore_append (lex : String → ℤ) (a b : List String) :
    rawLexiconScore lex (a ++ b)
      = rawLexiconScore lex a + rawLexiconScore lex b := by
  unfold rawLexiconScore
  rw [List.map_append, List.sum_append]

theorem length_le_rawLexiconScore (lex : String → ℤ) (l : List String)
    (h : ∀ t ∈ l, 0 < lex t) : (l.length : ℤ) ≤ rawLexiconScore lex l := by
  induction l with
  | nil => simp [rawLexiconScore]
  | cons t ts ih =>
    have h1 := h t (List.mem_cons_self t ts)
    have h2 := ih (fun x hx => h x (List.mem_cons_of_mem t hx))
    unfold rawLexiconScore at h2 ⊢
    rw [List.map_cons, List.sum_cons, List.length_cons]
    push_cast
    omega

theorem rawLexiconScore_nonpos (lex : String → ℤ) (l : List String)
    (h : ∀ t ∈ l, lex t < 0) : rawLexiconScore lex l ≤ 0 := by
  induction l with
  | nil => simp [rawLexiconScore]
  | cons t ts ih =>
    have h1 := h t (List.mem_cons_self t ts)
    have h2 := ih (fun x hx => h x (List.mem_cons_of_mem t hx))
    unfold rawLexiconScore at h2 ⊢
    rw [List.map_cons, List.sum_cons]
    omega

theorem normalizeSentimentScore_mono {a b : ℚ} (h : a ≤ b) :
    normalizeSentimentScore a ≤ normalizeSentimentScore b := by
  unfold normalizeSentimentScore
  exact max_le_max le_rfl (min_le_min le_rfl (by linarith))

theorem normalizeSentimentScore_pin {a b : ℚ} (hab : a < b)
    (heq : normalizeSentimentScore b = normalizeSentimentScore a) :
    normalizeSentimentScore a = 100 ∨ normalizeSentimentScore b = 0 := by
  unfold normalizeSentimentScore at heq ⊢
  have hxy : (a + 10) * 5 < (b + 10) * 5 := by linarith
  by_cases h100 : (100 : ℚ) ≤ (a + 10) * 5
  · left
    rw [min_eq_left h100]
    norm_num
  · by_cases h0 : (b + 10) * 5 ≤ 0
    · right
      rw [min_eq_right (by linarith), max_eq_left h0]
    · push_neg at h100 h0
      exfalso
      have hlt : max 0 (min 100 ((a + 10) * 5))
          < max 0 (min 100 ((b + 10) * 5)) := by
        rcases le_or_lt ((a + 10) * 5) 0 with hx0 | hx0
        · rw [min_eq_right (by linarith : (a + 10) * 5 ≤ 100),
            max_eq_left hx0]
          exact lt_of_lt_of_le (lt_min (by norm_num) h0) (le_max_right _ _)
        · rw [min_eq_right (le_of_lt h100), max_eq_right (le_of_lt hx0)]
          exact lt_of_lt_of_le (lt_min h100 hxy) (le_max_right _ _)
      rw [heq] at hlt
      exact lt_irrefl _ hlt

/-- C9 counterexample: for the text `bad` repeated ten times (raw lexicon
score −30, sentiment score clamped at 0), appending the positive-lexicon
word `good` (polarity +3) leaves the sentiment score equal at 0, which is
not 100 — so appending positive words can leave the score unchanged even
when it is not clamped at 100, refuting the claim as stated. -/
theorem claim_C9_counterexample :
    0 < lexSample "good"
    ∧ sentimentScoreOf lexSample
        (List.replicate 10 "bad" ++ ["good"])
        = sentimentScoreOf lexSample (List.replicate 10 "bad")
    ∧ sentimentScoreOf lexSample (List.replicate 10 "bad") ≠ 100 := by
  have hbad : rawLexiconScore lexSample (List.replicate 10 "bad") = -30 := by
    simp [rawLexiconScore, lexSample, List.replicate]
  have happ : rawLexiconScore lexSample
      (List.replicate 10 "bad" ++ ["good"]) = -27 := by
    rw [rawLexiconScore_append, hbad]
    simp [rawLexiconScore, lexSample]
  refine ⟨by simp [lexSample], ?_, ?_⟩
  · unfold sentimentScoreOf
    rw [hbad, happ]
    unfold normalizeSentimentScore
    norm_num
  · unfold sentimentScoreOf
    rw [hbad]
    unfold normalizeSentimentScore
    norm_num

/-- C9 (amended): appending only positive-lexicon words never decreases the
sentiment score, and can leave it equal only when clamping pins it — the
score is already 100, or the appended score is still clamped at 0; appending
only negative-lexicon words never increases the sentiment score. -/
theorem claim_C9_sentiment_monotonicity (lex : String → ℤ)
    (tokens extra : List String) :
    ((∀ t ∈ extra, 0 < lex t) →
      sentimentScoreOf lex tokens ≤ sentimentScoreOf lex (tokens ++ extra)
      ∧ (extra ≠ [] →
          sentimentScoreOf lex (tokens ++ extra)
            = sentimentScoreOf lex tokens →
          sentimentScoreOf lex tokens = 100
            ∨ sentimentScoreOf lex (tokens ++ extra) = 0))
    ∧ ((∀ t ∈ extra, lex t < 0) →
        sentimentScoreOf lex (tokens ++ extra)
          ≤ sentimentScoreOf lex tokens) := by
  constructor
  · intro hpos
    have hlen := length_le_rawLexiconScore lex extra hpos
    have hsplit := rawLexiconScore_append lex tokens extra
    constructor
    · apply normalizeSentimentScore_mono
      have : rawLexiconScore lex tokens
          ≤ rawLexiconScore lex (tokens ++ extra) := by omega
      exact_mod_cast this
    · intro hne heq
      have hlenpos : 1 ≤ extra.length :=
        List.length_pos.2 hne
      have hlt : rawLexiconScore lex tokens
          < rawLexiconScore lex (tokens ++ extra) := by omega
      have hltq : ((rawLexiconScore lex tokens : ℤ) : ℚ)
          < ((rawLexiconScore lex (tokens ++ extra) : ℤ) : ℚ) := by
        exact_mod_cast hlt
      exact normalizeSentimentScore_pin hltq heq
  · intro hneg
    have hnp := rawLexiconScore_nonpos lex extra hneg
    have hsplit := rawLexiconScore_append lex tokens extra
    apply normalizeSentimentScore_mono
    have : rawLexiconScore lex (tokens ++ extra)
        ≤ rawLexiconScore lex tokens := by omega
    exact_mod_cast this

theorem claim_C3_witness :
    (analyzeTranscript docGood).sentimentScore
      = clamp0100 ((((rawLexiconScore lexSample ["good"] : ℤ) : ℚ) + 10) * 5) :=
  (claim_C3_sentiment_formula docGood lexSample ["good"]
    (by simp [docGood, rawLexiconScore, lexSample])).1

theorem claim_C5_witness :
    specEngagementScore docInteractive.questionCount
        docInteractive.exclamationCount
        (fun w => if w = "you" then 20 else 0)
      = specEngagementScore docInteractive.questionCount
          docInteractive.exclamationCount docInteractive.interactiveMatches :=
  (claim_C5_engagement_formula docInteractive).2
    (fun w => if w = "you" then 20 else 0) (by decide)

theorem claim_C6_witness :
    (analyzeTranscript docQandA).questionRelevanceScore
      = (if 2 ≤ ((docQandA.sentences.filter
              (fun s => !s.hasQuestionMark)).length : ℚ)
            / (docQandA.questionCount : ℚ)
          ∧ ((docQandA.sentences.filter
              (fun s => !s.hasQuestionMark)).length : ℚ)
            / (docQandA.questionCount : ℚ) ≤ 5
         then 90 else 70) :=
  (claim_C6_question_relevance docQandA).2.1 (by decide)

theorem claim_C8_witness :
    analyzeTranscriptChecked (some docBase)
      = Except.ok (analyzeTranscript docBase)
    ∧ (analyzeTranscript docBase).clarityScore = 0
    ∧ (analyzeTranscript docBase).detailedAnalysis.avgWordsPerSentence = 0
    ∧ (analyzeTranscript docBase).questionRelevanceScore = 75 :=
  ⟨claim_C8_total_and_guarded.1 docBase,
   (claim_C8_total_and_guarded.2.2.2.1 docBase rfl).1,
   (claim_C8_total_and_guarded.2.2.2.1 docBase rfl).2,
   claim_C8_total_and_guarded.2.2.2.2 docBase rfl⟩

theorem claim_C9_witness :
    sentimentScoreOf lexSample [] ≤ sentimentScoreOf lexSample ([] ++ ["good"])
    ∧ sentimentScoreOf lexSample (["good"] ++ ["bad"])
        ≤ sentimentScoreOf lexSample ["good"] :=
  ⟨((claim_C9_sentiment_monotonicity lexSample [] ["good"]).1 (by decide)).1,
   (claim_C9_sentiment_monotonicity lexSample ["good"] ["bad"]).2 (by decide)⟩

set_option maxRecDepth 4000

theorem claim_C10_witness :
    150 ≤ jsSplitWsLength longTextSample
    ∧ calculateSpeakingPace longTextSample = 150 :=
  ⟨by decide, (claim_C10_pace_bounds longTextSample).2.2.2 (by decide)⟩
